import Mathlib

/-!
Verification of the rendering pipeline in plot_utils.py of the
kinematic-origami repository.

The module has three entry points:

* set_axes_equal: recenters and rescales the three axes of a 3D drawing
  surface to a common cubic bounding volume;
* plot_custom_configuration (together with the plot_reference_configuration
  wrapper): lifts each face of a crease pattern to homogeneous coordinates,
  applies the per-face composite 4x4 transform obtained from the model,
  recenters the mesh on the fixed face, and attaches a single depth-sorted,
  per-face-colored polygon collection to the surface;
* plot_crease_pattern: draws the flat 2D diagram of the pattern with
  per-fold colors, reference-point markers and optional annotations.

The embedding below translates those functions over exact rational
arithmetic.  The matplotlib color-map registry (plt.get_cmap looked up by
name) is an external collaborator; following the spec it is passed as an
explicit palette function from normalized positions to RGBA values.  The
ScalarMappable built from Normalize(0, n) sends an index i to the palette
value at i / n.  The drawing surfaces (Axes3D, Axes2D) are modelled as
records of the state the module reads or writes: axis limits, attached
collections, scatter data, text annotations and the 2D aspect value.
-/

/-- An RGB color triple. -/
abbrev RGB : Type := ℚ × ℚ × ℚ

/-- An RGBA color quadruple, as returned by a palette lookup. -/
abbrev RGBA : Type := ℚ × ℚ × ℚ × ℚ

/-- Drop the alpha channel of a palette value, as the slice [:3] does. -/
def rgb3 (c : RGBA) : RGB := (c.1, c.2.1, c.2.2.1)

/-- A point of 3D space (one row of the polygon data handed to the
surface, after the homogeneous coordinate has been dropped). -/
structure Vec3 where
  x : ℚ
  y : ℚ
  z : ℚ
deriving DecidableEq, Repr

/-- A homogeneous 4D point, as built by the two hstack calls. -/
structure Vec4 where
  x : ℚ
  y : ℚ
  z : ℚ
  w : ℚ
deriving DecidableEq, Repr

/-- Dot product of two 4-vectors. -/
def dot4 (a b : Vec4) : ℚ := a.x * b.x + a.y * b.y + a.z * b.z + a.w * b.w

/-- A 4x4 matrix, stored by rows: one composite face transform. -/
structure Mat4 where
  r0 : Vec4
  r1 : Vec4
  r2 : Vec4
  r3 : Vec4
deriving DecidableEq, Repr

/-- Matrix-vector product, the np.dot(composite, points_4d[j]) step. -/
def Mat4.apply (m : Mat4) (v : Vec4) : Vec4 :=
  ⟨dot4 m.r0 v, dot4 m.r1 v, dot4 m.r2 v, dot4 m.r3 v⟩

/-- The identity transform. -/
def Mat4.id : Mat4 :=
  ⟨⟨1, 0, 0, 0⟩, ⟨0, 1, 0, 0⟩, ⟨0, 0, 1, 0⟩, ⟨0, 0, 0, 1⟩⟩

/-- The crease-pattern model, external and read-only to this module.  Its
folding-map computation is a black-box capability; it is carried here as a
function field. -/
structure CreasePattern where
  num_faces : ℕ
  num_folds : ℕ
  face_corner_points : List (List (ℚ × ℚ))
  num_face_corner_points : List ℕ
  face_centers : List (ℚ × ℚ)
  fixed_face : ℕ
  reference_points : List (ℚ × ℚ)
  p1 : List (ℚ × ℚ)
  p2 : List (ℚ × ℚ)
  fold_vector_points : List (ℕ × ℕ)
  fold_angle_target : List ℚ
  compute_folding_map : List ℚ → List Mat4

/-- One Poly3DCollection: the polygon data, face colors, alpha value,
depth-sort mode and optional edge color configured on it. -/
structure Poly3DCollection where
  polys : List (List Vec3)
  facecolor : List RGB
  alpha : ℚ
  zsort : String
  edgecolor : Option RGB
deriving DecidableEq, Repr

/-- The state of a 3D drawing surface that this module reads or writes:
the three axis limits and the list of attached collections. -/
structure Axes3D where
  xlim : ℚ × ℚ
  ylim : ℚ × ℚ
  zlim : ℚ × ℚ
  collections : List Poly3DCollection
deriving DecidableEq, Repr

/-- Lift a 2D corner point to homogeneous coordinates: append z = 0 and
w = 1 (the two hstack calls). -/
def lift4 (p : ℚ × ℚ) : Vec4 := ⟨p.1, p.2, 0, 1⟩

/-- Drop the w coordinate of a transformed corner and translate by
(size_x * 0.5, size_y * 0.5, 0) minus the lifted fixed-face centroid. -/
def recenter (size_x size_y : ℚ) (fc : ℚ × ℚ) (q : Vec4) : Vec3 :=
  ⟨q.x + size_x * 0.5 - fc.1, q.y + size_y * 0.5 - fc.2, q.z + 0 - 0⟩

/-- The polygon emitted for face i: the valid prefix of its corner points,
lifted, transformed by the face composite matrix, recentered. -/
def face_polygon (cp : CreasePattern) (face_map : List Mat4)
    (size_x size_y : ℚ) (i : ℕ) : List Vec3 :=
  let points_2d := (cp.face_corner_points.getD i []).take
    (cp.num_face_corner_points.getD i 0)
  let composite := face_map.getD i Mat4.id
  let fc := cp.face_centers.getD cp.fixed_face (0, 0)
  points_2d.map (fun p => recenter size_x size_y fc (composite.apply (lift4 p)))

/-- The single polygon collection built by one render call: all face
polygons in face order, face-indexed palette colors, the requested alpha,
the max depth-sort mode, and a black edge color when edges is set. -/
def rendered_poly_collection (cp : CreasePattern) (fold_angles : List ℚ)
    (cmap : ℚ → RGBA) (alpha : ℚ) (edges : Bool)
    (size_x size_y : ℚ) : Poly3DCollection :=
  let face_map := cp.compute_folding_map fold_angles
  { polys := (List.range cp.num_faces).map (face_polygon cp face_map size_x size_y)
    facecolor := (List.range cp.num_faces).map
      (fun (i : ℕ) => rgb3 (cmap ((i : ℚ) / (cp.num_faces : ℚ))))
    alpha := alpha
    zsort := "max"
    edgecolor := if edges then some (0, 0, 0) else none }

/-- plot_custom_configuration: reads the upper x and y limits, checks the
fold-angle count, clears the attached collections, and attaches the one
new polygon collection.  The returned pair is the surface state after the
call together with the raised error message, if any; on the error path
the surface is returned exactly as it came in, since the raise precedes
every mutation in the source. -/
def plot_custom_configuration (cp : CreasePattern) (fold_angles : List ℚ)
    (cmap : ℚ → RGBA) (alpha : ℚ) (edges : Bool)
    (ax : Axes3D) : Axes3D × Option String :=
  let size_x := ax.xlim.2
  let size_y := ax.ylim.2
  if fold_angles.length ≠ cp.num_folds then
    (ax, some "Invalid number of fold angles")
  else
    let ax1 : Axes3D := { ax with collections := [] }
    let poly_collection := rendered_poly_collection cp fold_angles cmap alpha edges size_x size_y
    ({ ax1 with collections := ax1.collections ++ [poly_collection] }, none)

/-- plot_reference_configuration: the same render with an all-zero
fold-angle vector and the default alpha and edge arguments. -/
def plot_reference_configuration (cp : CreasePattern) (cmap : ℚ → RGBA)
    (ax : Axes3D) : Axes3D × Option String :=
  let fold_angles := List.replicate cp.num_folds (0 : ℚ)
  plot_custom_configuration cp fold_angles cmap 1 false ax

/-- The recentered transformed centroid of the fixed reference face: the
flat centroid face_centers[fixed_face] lifted to z = 0, transformed by the
fixed-face composite, then translated exactly as every polygon corner is. -/
def recentered_transformed_fixed_centroid (cp : CreasePattern)
    (fold_angles : List ℚ) (size_x size_y : ℚ) : Vec3 :=
  let fc := cp.face_centers.getD cp.fixed_face (0, 0)
  let composite := (cp.compute_folding_map fold_angles).getD cp.fixed_face Mat4.id
  recenter size_x size_y fc (composite.apply (lift4 fc))

/-- Modelled from the spec: compute_folding_map is an external black-box
capability of the crease-pattern model ("the algorithm that computes
per-face 4x4 transforms from fold angles" is explicitly out of scope), and
the glossary fixes its one relevant property: the fixed face is "the face
treated as stationary; all other faces transforms are expressed relative
to it".  Stationary means the composite transform of the fixed face is the
identity. -/
def fixed_face_stationary (cp : CreasePattern) (fold_angles : List ℚ) : Prop :=
  (cp.compute_folding_map fold_angles).getD cp.fixed_face Mat4.id = Mat4.id

instance (cp : CreasePattern) (fa : List ℚ) : Decidable (fixed_face_stationary cp fa) := by
  unfold fixed_face_stationary
  infer_instance

/-- set_axes_equal: recenter each axis at its midpoint and give all three
the common half-range, half of the largest of the three spans. -/
def set_axes_equal (ax : Axes3D) : Axes3D :=
  let x_limits := ax.xlim
  let y_limits := ax.ylim
  let z_limits := ax.zlim
  let x_range := |x_limits.2 - x_limits.1|
  let x_middle := (x_limits.1 + x_limits.2) / 2
  let y_range := |y_limits.2 - y_limits.1|
  let y_middle := (y_limits.1 + y_limits.2) / 2
  let z_range := |z_limits.2 - z_limits.1|
  let z_middle := (z_limits.1 + z_limits.2) / 2
  let plot_radius := 0.5 * max x_range (max y_range z_range)
  { ax with
    xlim := (x_middle - plot_radius, x_middle + plot_radius)
    ylim := (y_middle - plot_radius, y_middle + plot_radius)
    zlim := (z_middle - plot_radius, z_middle + plot_radius) }

/-- Half of the largest of the three axis spans of a surface, the
half_max_range of the spec. -/
def half_max_range (ax : Axes3D) : ℚ :=
  max |ax.xlim.2 - ax.xlim.1| (max |ax.ylim.2 - ax.ylim.1| |ax.zlim.2 - ax.zlim.1|) / 2

/-- Limits of one axis as the spec states them: the interval from the
midpoint minus r to the midpoint plus r. -/
def normalized_limits (lims : ℚ × ℚ) (r : ℚ) : ℚ × ℚ :=
  ((lims.1 + lims.2) / 2 - r, (lims.1 + lims.2) / 2 + r)

/-- One LineCollection attached to a 2D surface: the fold segments with
their colors and line width. -/
structure LineCollection where
  segments : List (List (ℚ × ℚ))
  colors : List RGB
  linewidths : ℚ
deriving DecidableEq, Repr

/-- The state of a 2D drawing surface that this module reads or writes:
axis limits, the aspect value, attached line collections, scatter layers
and text annotations (label text with its anchor point). -/
structure Axes2D where
  xlim : ℚ × ℚ
  ylim : ℚ × ℚ
  aspect : ℚ
  line_collections : List LineCollection
  scatters : List (List (ℚ × ℚ))
  labels : List (String × (ℚ × ℚ))
deriving DecidableEq, Repr

/-- The per-fold colors of the planar diagram.  In palette mode a fold
index maps through the palette at i / num_folds; in default mode the sign
of fold_angle_target[i] picks blue for valley folds, red for mountain
folds, black for a zero target. -/
def crease_colors (cp : CreasePattern) (color_map : Option (ℚ → RGBA)) : List RGB :=
  match color_map with
  | some cmap =>
    (List.range cp.num_folds).map (fun (i : ℕ) => rgb3 (cmap ((i : ℚ) / (cp.num_folds : ℚ))))
  | none =>
    let m_color : RGB := (1, 0, 0)
    let v_color : RGB := (0, 0, 1)
    let b_color : RGB := (0, 0, 0)
    (List.range cp.num_folds).map (fun i =>
      if cp.fold_angle_target.getD i 0 < 0 then v_color
      else if 0 < cp.fold_angle_target.getD i 0 then m_color
      else b_color)

/-- The fold line segments, one per fold from p1[i] to p2[i]. -/
def crease_segments (cp : CreasePattern) : List (List (ℚ × ℚ)) :=
  (cp.p1.zip cp.p2).map (fun ab => [ab.1, ab.2])

/-- The midpoints of the fold segments, anchors of the fold labels. -/
def crease_midpoints (cp : CreasePattern) : List (ℚ × ℚ) :=
  (cp.p1.zip cp.p2).map (fun ab =>
    ((ab.1.1 + ab.2.1) * 0.5, (ab.1.2 + ab.2.2) * 0.5))

/-- plot_crease_pattern: attach the fold-segment line collection, scatter
the reference points, set the aspect value from the current axis extents,
and append the requested annotation layers. -/
def plot_crease_pattern (cp : CreasePattern) (color_map : Option (ℚ → RGBA))
    (annotate_folds annotate_reference_points annotate_faces : Bool)
    (ax : Axes2D) : Axes2D :=
  let colors := crease_colors cp color_map
  let line_collection : LineCollection := ⟨crease_segments cp, colors, 1⟩
  let ax1 : Axes2D := { ax with line_collections := ax.line_collections ++ [line_collection] }
  let ax2 : Axes2D := { ax1 with scatters := ax1.scatters ++ [cp.reference_points] }
  let aspect_ratio : ℚ := 1
  let xleft := ax2.xlim.1
  let xright := ax2.xlim.2
  let ybottom := ax2.ylim.1
  let ytop := ax2.ylim.2
  let ax3 : Axes2D := { ax2 with aspect := |(xright - xleft) / (ybottom - ytop)| * aspect_ratio }
  let fold_labels := if annotate_folds then
      (crease_midpoints cp).enum.map (fun iv =>
        let e := cp.fold_vector_points.getD iv.1 (0, 0)
        ("e" ++ toString iv.1 ++ "\n" ++ toString e.1 ++ "-" ++ toString e.2, iv.2))
    else []
  let point_labels := if annotate_reference_points then
      cp.reference_points.enum.map (fun iv => ("v" ++ toString iv.1, iv.2))
    else []
  let face_labels := if annotate_faces then
      cp.face_centers.enum.map (fun iv => ("F" ++ toString iv.1, iv.2))
    else []
  { ax3 with labels := ax3.labels ++ fold_labels ++ point_labels ++ face_labels }

/-- The spec reading of the aspect contract of the external 2D surface:
one data unit in x spans the same display length as one data unit in y
exactly when the aspect value set on the surface is 1 (set_aspect(1),
alias "equal", in the matplotlib surface contract). -/
def data_units_equal (ax : Axes2D) : Prop := ax.aspect = 1

instance (ax : Axes2D) : Decidable (data_units_equal ax) := by
  unfold data_units_equal
  infer_instance

/-- A sample palette: injective in its red channel. -/
def sampleCmap : ℚ → RGBA := fun q => (q, 0, 0, 1)

/-- A sample folding map: identity transforms for two faces. -/
def sampleFoldMap : List ℚ → List Mat4 := fun _ => [Mat4.id, Mat4.id]

/-- A sample crease pattern: a unit square split into two triangles by one
fold along the diagonal; the first face carries one padded corner slot. -/
def sampleCP : CreasePattern where
  num_faces := 2
  num_folds := 1
  face_corner_points := [[(0, 0), (1, 0), (0, 1), (9, 9)], [(1, 0), (1, 1), (0, 1)]]
  num_face_corner_points := [3, 3]
  face_centers := [(1/3, 1/3), (2/3, 2/3)]
  fixed_face := 0
  reference_points := [(0, 0), (1, 0), (1, 1), (0, 1)]
  p1 := [(1, 0)]
  p2 := [(0, 1)]
  fold_vector_points := [(1, 3)]
  fold_angle_target := [1/2]
  compute_folding_map := sampleFoldMap

/-- A sample crease pattern for the planar diagram, with one fold of each
sign of the target angle. -/
def samplePlanarCP : CreasePattern where
  num_faces := 0
  num_folds := 3
  face_corner_points := []
  num_face_corner_points := []
  face_centers := []
  fixed_face := 0
  reference_points := [(0, 0), (1, 0), (1, 1), (0, 1)]
  p1 := [(0, 0), (1, 0), (0, 1)]
  p2 := [(1, 0), (1, 1), (1, 0)]
  fold_vector_points := [(0, 1), (1, 2), (3, 1)]
  fold_angle_target := [-1, 1, 0]
  compute_folding_map := fun _ => []

/-- A sample 3D surface with two stale collections attached. -/
def sampleAxes3D : Axes3D where
  xlim := (0, 10)
  ylim := (0, 8)
  zlim := (0, 5)
  collections := [⟨[], [], 1, "average", none⟩, ⟨[], [], 1, "average", none⟩]

/-- A sample 2D surface whose x span is twice its y span. -/
def sampleAxes2D : Axes2D where
  xlim := (0, 2)
  ylim := (0, 1)
  aspect := 0
  line_collections := []
  scatters := []
  labels := []

theorem getD_map_range {α : Type} (f : ℕ → α) (n i : ℕ) (d : α) (h : i < n) :
    ((List.range n).map f).getD i d = f i := by
  rw [List.getD_eq_getElem?_getD, List.getElem?_map, List.getElem?_range h]
  rfl

theorem getD_map_take {α β : Type} (l : List α) (f : α → β) (n j : ℕ) (d : β) (d0 : α)
    (hj : j < n) (hn : n ≤ l.length) :
    ((l.take n).map f).getD j d = f (l.getD j d0) := by
  have hjl : j < l.length := lt_of_lt_of_le hj hn
  rw [List.getD_eq_getElem?_getD, List.getElem?_map, List.getElem?_take]
  simp only [hj, if_true, List.getElem?_eq_getElem hjl, Option.map_some]
  rw [List.getD_eq_getElem?_getD, List.getElem?_eq_getElem hjl]
  rfl

theorem Mat4.id_apply (v : Vec4) : Mat4.id.apply v = v := by
  cases v
  simp [Mat4.apply, Mat4.id, dot4]

theorem div_natCast_strictMono (i j n : ℕ) (hij : i < j) (hj : j < n) :
    (i : ℚ) / (n : ℚ) < (j : ℚ) / (n : ℚ) := by
  have hn : (0 : ℚ) < n := by exact_mod_cast Nat.lt_of_le_of_lt (Nat.zero_le j) hj
  simp only [div_eq_mul_inv]
  exact mul_lt_mul_of_pos_right (by exact_mod_cast hij) (inv_pos.mpr hn)

theorem div_natCast_inj (i j n : ℕ) (hn : n ≠ 0)
    (h : (i : ℚ) / (n : ℚ) = (j : ℚ) / (n : ℚ)) : i = j := by
  have hq : (n : ℚ) ≠ 0 := Nat.cast_ne_zero.mpr hn
  have h2 : (i : ℚ) = j := by
    have := congrArg (· * (n : ℚ)) h
    simpa [div_mul_cancel₀, hq] using this
  exact_mod_cast h2

/-- C1: a fold-angle vector whose length differs from num_folds makes the
render return the invalid-input error with the surface exactly as it came
in: the raise precedes every mutation, so no collection is cleared or
attached and nothing is drawn. -/
theorem C1_length_mismatch_aborts_before_mutation (cp : CreasePattern)
    (fold_angles : List ℚ) (cmap : ℚ → RGBA) (alpha : ℚ) (edges : Bool)
    (ax : Axes3D) (h : fold_angles.length ≠ cp.num_folds) :
    plot_custom_configuration cp fold_angles cmap alpha edges ax
      = (ax, some "Invalid number of fold angles") ∧
    (plot_custom_configuration cp fold_angles cmap alpha edges ax).1.collections
      = ax.collections := by
  constructor <;> simp [plot_custom_configuration, h]

theorem C1_witness :
    ([] : List ℚ).length ≠ sampleCP.num_folds ∧
    plot_custom_configuration sampleCP [] sampleCmap 1 false sampleAxes3D
      = (sampleAxes3D, some "Invalid number of fold angles") :=
  ⟨by decide,
   (C1_length_mismatch_aborts_before_mutation sampleCP [] sampleCmap 1 false
      sampleAxes3D (by decide)).1⟩

/-- C2: for a fold-angle vector of the right length the render succeeds,
and with the fixed-face composite stationary the recentered transformed
centroid of the fixed reference face is exactly
(size_x * 0.5, size_y * 0.5, 0), the visual center of the drawing. -/
theorem C2_fixed_face_centroid_recentered (cp : CreasePattern)
    (fold_angles : List ℚ) (cmap : ℚ → RGBA) (alpha : ℚ) (edges : Bool)
    (ax : Axes3D) (hlen : fold_angles.length = cp.num_folds)
    (hfix : fixed_face_stationary cp fold_angles) :
    (plot_custom_configuration cp fold_angles cmap alpha edges ax).2 = none ∧
    recentered_transformed_fixed_centroid cp fold_angles ax.xlim.2 ax.ylim.2
      = ⟨ax.xlim.2 * 0.5, ax.ylim.2 * 0.5, 0⟩ := by
  constructor
  · simp [plot_custom_configuration, hlen]
  · unfold recentered_transformed_fixed_centroid
    rw [fixed_face_stationary] at hfix
    rw [hfix]
    simp only [Mat4.id_apply]
    unfold recenter lift4
    congr 1 <;> ring

theorem C2_witness :
    ([0] : List ℚ).length = sampleCP.num_folds ∧
    fixed_face_stationary sampleCP [0] ∧
    ((plot_custom_configuration sampleCP [0] sampleCmap 1 false sampleAxes3D).2 = none ∧
     recentered_transformed_fixed_centroid sampleCP [0]
         sampleAxes3D.xlim.2 sampleAxes3D.ylim.2
       = ⟨sampleAxes3D.xlim.2 * 0.5, sampleAxes3D.ylim.2 * 0.5, 0⟩) :=
  ⟨by decide, by decide,
   C2_fixed_face_centroid_recentered sampleCP [0] sampleCmap 1 false sampleAxes3D
     (by decide) (by decide)⟩

/-- C3: the reference-configuration renderer is exactly the folded render
at the all-zero fold-angle vector with the default alpha and edge
arguments — the same full output, polygons and colors included — and it
always succeeds. -/
theorem C3_reference_is_zero_fold_render (cp : CreasePattern)
    (cmap : ℚ → RGBA) (ax : Axes3D) :
    plot_reference_configuration cp cmap ax
      = plot_custom_configuration cp (List.replicate cp.num_folds 0) cmap 1 false ax ∧
    (plot_reference_configuration cp cmap ax).2 = none := by
  refine ⟨rfl, ?_⟩
  simp [plot_reference_configuration, plot_custom_configuration]

theorem rendered_polys (cp : CreasePattern) (fa : List ℚ) (cmap : ℚ → RGBA)
    (alpha : ℚ) (edges : Bool) (sx sy : ℚ) :
    (rendered_poly_collection cp fa cmap alpha edges sx sy).polys
      = (List.range cp.num_faces).map
          (face_polygon cp (cp.compute_folding_map fa) sx sy) := rfl

theorem rendered_facecolor (cp : CreasePattern) (fa : List ℚ) (cmap : ℚ → RGBA)
    (alpha : ℚ) (edges : Bool) (sx sy : ℚ) :
    (rendered_poly_collection cp fa cmap alpha edges sx sy).facecolor
      = (List.range cp.num_faces).map
          (fun (i : ℕ) => rgb3 (cmap ((i : ℚ) / (cp.num_faces : ℚ)))) := rfl

/-- C4: a valid render emits exactly num_faces polygons in face-index
order and colors polygon i with the palette value at position
i / num_faces after dropping the alpha channel; the palette positions
grow strictly with the face index, and for a palette injective in its RGB
part the per-face colors are pairwise distinct. -/
theorem C4_face_indexed_palette_colors (cp : CreasePattern)
    (fold_angles : List ℚ) (cmap : ℚ → RGBA) (alpha : ℚ) (edges : Bool)
    (ax : Axes3D) (hlen : fold_angles.length = cp.num_folds)
    (hinj : Function.Injective (fun q : ℚ => rgb3 (cmap q))) :
    (plot_custom_configuration cp fold_angles cmap alpha edges ax).2 = none ∧
    ∃ c : Poly3DCollection,
      (plot_custom_configuration cp fold_angles cmap alpha edges ax).1.collections = [c] ∧
      c.polys.length = cp.num_faces ∧
      c.polys = (List.range cp.num_faces).map
        (face_polygon cp (cp.compute_folding_map fold_angles) ax.xlim.2 ax.ylim.2) ∧
      c.facecolor.length = cp.num_faces ∧
      (∀ i, i < cp.num_faces →
        c.facecolor.getD i (0, 0, 0) = rgb3 (cmap ((i : ℚ) / (cp.num_faces : ℚ)))) ∧
      (∀ i j, i < j → j < cp.num_faces →
        (i : ℚ) / (cp.num_faces : ℚ) < (j : ℚ) / (cp.num_faces : ℚ)) ∧
      (∀ i j, i < cp.num_faces → j < cp.num_faces → i ≠ j →
        c.facecolor.getD i (0, 0, 0) ≠ c.facecolor.getD j (0, 0, 0)) := by
  refine ⟨by simp [plot_custom_configuration, hlen], ?_⟩
  refine ⟨rendered_poly_collection cp fold_angles cmap alpha edges ax.xlim.2 ax.ylim.2,
    by simp [plot_custom_configuration, hlen], ?_, rfl, ?_, ?_, ?_, ?_⟩
  · rw [rendered_polys, List.length_map, List.length_range]
  · rw [rendered_facecolor, List.length_map, List.length_range]
  · intro i hi
    rw [rendered_facecolor, getD_map_range _ _ _ _ hi]
  · intro i j hij hj
    exact div_natCast_strictMono i j cp.num_faces hij hj
  · intro i j hi hj hne heq
    rw [rendered_facecolor, getD_map_range _ _ _ _ hi, getD_map_range _ _ _ _ hj] at heq
    have hN : cp.num_faces ≠ 0 := (Nat.lt_of_le_of_lt (Nat.zero_le i) hi).ne.symm
    exact hne (div_natCast_inj i j cp.num_faces hN (hinj heq))

theorem C4_witness :
    ([0] : List ℚ).length = sampleCP.num_folds ∧
    ((plot_custom_configuration sampleCP [0] sampleCmap 1 false sampleAxes3D).2 = none ∧
     ∃ c : Poly3DCollection,
       (plot_custom_configuration sampleCP [0] sampleCmap 1 false sampleAxes3D).1.collections
         = [c] ∧
       c.polys.length = sampleCP.num_faces ∧
       c.polys = (List.range sampleCP.num_faces).map
         (face_polygon sampleCP (sampleCP.compute_folding_map [0])
           sampleAxes3D.xlim.2 sampleAxes3D.ylim.2) ∧
       c.facecolor.length = sampleCP.num_faces ∧
       (∀ i, i < sampleCP.num_faces →
         c.facecolor.getD i (0, 0, 0)
           = rgb3 (sampleCmap ((i : ℚ) / (sampleCP.num_faces : ℚ)))) ∧
       (∀ i j, i < j → j < sampleCP.num_faces →
         (i : ℚ) / (sampleCP.num_faces : ℚ) < (j : ℚ) / (sampleCP.num_faces : ℚ)) ∧
       (∀ i j, i < sampleCP.num_faces → j < sampleCP.num_faces → i ≠ j →
         c.facecolor.getD i (0, 0, 0) ≠ c.facecolor.getD j (0, 0, 0))) :=
  ⟨by decide,
   C4_face_indexed_palette_colors sampleCP [0] sampleCmap 1 false sampleAxes3D
     (by decide)
     (fun a b h => congrArg (fun t : RGB => t.1) h)⟩

/-- C5: a valid render clears the previously attached collections and then
attaches exactly one new collection; the axis limits are untouched by the
call, and a second render on the resulting surface again leaves exactly
the single collection built by the second call. -/
theorem C5_render_replaces_collections (cp : CreasePattern)
    (fa1 fa2 : List ℚ) (cmap : ℚ → RGBA) (alpha : ℚ) (edges : Bool)
    (ax : Axes3D) (h1 : fa1.length = cp.num_folds) (h2 : fa2.length = cp.num_folds) :
    (plot_custom_configuration cp fa1 cmap alpha edges ax).2 = none ∧
    (plot_custom_configuration cp fa1 cmap alpha edges ax).1.collections
      = [rendered_poly_collection cp fa1 cmap alpha edges ax.xlim.2 ax.ylim.2] ∧
    (plot_custom_configuration cp fa1 cmap alpha edges ax).1.collections.length = 1 ∧
    (plot_custom_configuration cp fa1 cmap alpha edges ax).1.xlim = ax.xlim ∧
    (plot_custom_configuration cp fa1 cmap alpha edges ax).1.ylim = ax.ylim ∧
    (plot_custom_configuration cp fa1 cmap alpha edges ax).1.zlim = ax.zlim ∧
    (plot_custom_configuration cp fa2 cmap alpha edges
        (plot_custom_configuration cp fa1 cmap alpha edges ax).1).1.collections
      = [rendered_poly_collection cp fa2 cmap alpha edges ax.xlim.2 ax.ylim.2] := by
  refine ⟨?_, ?_, ?_, ?_, ?_, ?_, ?_⟩ <;> simp [plot_custom_configuration, h1, h2]

theorem C5_witness :
    ([0] : List ℚ).length = sampleCP.num_folds ∧
    ((plot_custom_configuration sampleCP [0] sampleCmap 1 false sampleAxes3D).2 = none ∧
     (plot_custom_configuration sampleCP [0] sampleCmap 1 false sampleAxes3D).1.collections
       = [rendered_poly_collection sampleCP [0] sampleCmap 1 false
           sampleAxes3D.xlim.2 sampleAxes3D.ylim.2] ∧
     (plot_custom_configuration sampleCP [0] sampleCmap 1 false
         sampleAxes3D).1.collections.length = 1 ∧
     (plot_custom_configuration sampleCP [0] sampleCmap 1 false sampleAxes3D).1.xlim
       = sampleAxes3D.xlim ∧
     (plot_custom_configuration sampleCP [0] sampleCmap 1 false sampleAxes3D).1.ylim
       = sampleAxes3D.ylim ∧
     (plot_custom_configuration sampleCP [0] sampleCmap 1 false sampleAxes3D).1.zlim
       = sampleAxes3D.zlim ∧
     (plot_custom_configuration sampleCP [0] sampleCmap 1 false
         (plot_custom_configuration sampleCP [0] sampleCmap 1 false
           sampleAxes3D).1).1.collections
       = [rendered_poly_collection sampleCP [0] sampleCmap 1 false
           sampleAxes3D.xlim.2 sampleAxes3D.ylim.2]) :=
  ⟨by decide,
   C5_render_replaces_collections sampleCP [0] [0] sampleCmap 1 false sampleAxes3D
     (by decide) (by decide)⟩

theorem crease_colors_none_getD (cp : CreasePattern) (i : ℕ) (hi : i < cp.num_folds) :
    (crease_colors cp none).getD i (0, 0, 0)
      = if cp.fold_angle_target.getD i 0 < 0 then (0, 0, 1)
        else if 0 < cp.fold_angle_target.getD i 0 then (1, 0, 0) else (0, 0, 0) := by
  unfold crease_colors
  exact getD_map_range _ _ _ _ hi

/-- C6: in the default color mode of the planar diagram the fold colors
follow the strict sign trichotomy of the target angle, with no tolerance
band: a strictly negative target gives the valley color blue (0, 0, 1), a
strictly positive one the mountain color red (1, 0, 0), and an exactly
zero one the border color black (0, 0, 0). -/
theorem C6_default_color_trichotomy (cp : CreasePattern)
    (af arp afc : Bool) (ax : Axes2D) (i : ℕ) (hi : i < cp.num_folds) :
    ∃ lc : LineCollection,
      (plot_crease_pattern cp none af arp afc ax).line_collections
        = ax.line_collections ++ [lc] ∧
      lc.colors.length = cp.num_folds ∧
      (cp.fold_angle_target.getD i 0 < 0 → lc.colors.getD i (0, 0, 0) = (0, 0, 1)) ∧
      (0 < cp.fold_angle_target.getD i 0 → lc.colors.getD i (0, 0, 0) = (1, 0, 0)) ∧
      (cp.fold_angle_target.getD i 0 = 0 → lc.colors.getD i (0, 0, 0) = (0, 0, 0)) := by
  refine ⟨⟨crease_segments cp, crease_colors cp none, 1⟩, ?_, ?_, ?_, ?_, ?_⟩
  · simp [plot_crease_pattern]
  · simp [crease_colors]
  · intro h
    rw [crease_colors_none_getD cp i hi, if_pos h]
  · intro h
    rw [crease_colors_none_getD cp i hi, if_neg (lt_asymm h), if_pos h]
  · intro h
    rw [crease_colors_none_getD cp i hi, if_neg (by rw [h]; exact lt_irrefl 0),
      if_neg (by rw [h]; exact lt_irrefl 0)]

theorem C6_witness :
    (0 < samplePlanarCP.num_folds ∧ 1 < samplePlanarCP.num_folds ∧
     2 < samplePlanarCP.num_folds) ∧
    samplePlanarCP.fold_angle_target.getD 0 0 < 0 ∧
    0 < samplePlanarCP.fold_angle_target.getD 1 0 ∧
    samplePlanarCP.fold_angle_target.getD 2 0 = 0 ∧
    (∃ lc : LineCollection,
      (plot_crease_pattern samplePlanarCP none true true true
          sampleAxes2D).line_collections
        = sampleAxes2D.line_collections ++ [lc] ∧
      lc.colors.length = samplePlanarCP.num_folds ∧
      (samplePlanarCP.fold_angle_target.getD 0 0 < 0 →
        lc.colors.getD 0 (0, 0, 0) = (0, 0, 1)) ∧
      (0 < samplePlanarCP.fold_angle_target.getD 0 0 →
        lc.colors.getD 0 (0, 0, 0) = (1, 0, 0)) ∧
      (samplePlanarCP.fold_angle_target.getD 0 0 = 0 →
        lc.colors.getD 0 (0, 0, 0) = (0, 0, 0))) :=
  ⟨by decide, by decide, by decide, by decide,
   C6_default_color_trichotomy samplePlanarCP true true true sampleAxes2D 0 (by decide)⟩

/-- C7: set_axes_equal recenters every axis at its own midpoint and gives
all three the common half-range half_max_range, half of the largest of the
three spans; on the extents x = [-1, 1], y = [-5, 5], z = [0, 2] the
resulting limits are centered at (0, 0, 1) with half-range 5 on all three
axes, i.e. x = [-5, 5], y = [-5, 5], z = [-4, 6]. -/
theorem C7_set_axes_equal_cubic_bound :
    (∀ ax : Axes3D,
      (set_axes_equal ax).xlim = normalized_limits ax.xlim (half_max_range ax) ∧
      (set_axes_equal ax).ylim = normalized_limits ax.ylim (half_max_range ax) ∧
      (set_axes_equal ax).zlim = normalized_limits ax.zlim (half_max_range ax) ∧
      (set_axes_equal ax).collections = ax.collections) ∧
    set_axes_equal ⟨(-1, 1), (-5, 5), (0, 2), []⟩
      = ⟨(0 - 5, 0 + 5), (0 - 5, 0 + 5), (1 - 5, 1 + 5), []⟩ := by
  constructor
  · intro ax
    refine ⟨?_, ?_, ?_, rfl⟩ <;>
      · simp only [set_axes_equal, normalized_limits, half_max_range, Prod.mk.injEq]
        constructor <;> ring
  · simp only [set_axes_equal, Axes3D.mk.injEq, Prod.mk.injEq]
    norm_num

/-- C8 counterexample: on a surface whose x span (2) is twice its y span
(1), the planar renderer sets the aspect value to 2, not 1 — so one data
unit in x does not span the same display length as one data unit in y.
The claim fails at this concrete input. -/
theorem C8_counterexample :
    ¬ data_units_equal
        (plot_crease_pattern samplePlanarCP none true true true sampleAxes2D) ∧
    (plot_crease_pattern samplePlanarCP none true true true sampleAxes2D).aspect = 2 := by
  have ha : (plot_crease_pattern samplePlanarCP none true true true sampleAxes2D).aspect
      = |((2 : ℚ) - 0) / ((0 : ℚ) - 1)| * 1 := rfl
  constructor
  · rw [data_units_equal, ha]
    norm_num
  · rw [ha]
    norm_num

/-- C8 amended: every call of the planar renderer recomputes the aspect
value from the current axis extents of the surface as
|(xright - xleft) / (ybottom - ytop)| — equalizing the displayed lengths
of the two axes — and the data units come out equal (aspect 1) exactly
when the x span equals the y span. -/
theorem C8_aspect_recomputed_each_call (cp : CreasePattern)
    (cm : Option (ℚ → RGBA)) (af arp afc : Bool) (ax : Axes2D)
    (h : ax.ylim.1 ≠ ax.ylim.2) :
    (plot_crease_pattern cp cm af arp afc ax).aspect
      = |(ax.xlim.2 - ax.xlim.1) / (ax.ylim.1 - ax.ylim.2)| ∧
    (data_units_equal (plot_crease_pattern cp cm af arp afc ax)
      ↔ |ax.xlim.2 - ax.xlim.1| = |ax.ylim.1 - ax.ylim.2|) := by
  have hform : (plot_crease_pattern cp cm af arp afc ax).aspect
      = |(ax.xlim.2 - ax.xlim.1) / (ax.ylim.1 - ax.ylim.2)| := by
    show |(ax.xlim.2 - ax.xlim.1) / (ax.ylim.1 - ax.ylim.2)| * 1 = _
    rw [mul_one]
  refine ⟨hform, ?_⟩
  rw [data_units_equal, hform, abs_div]
  have hb : |ax.ylim.1 - ax.ylim.2| ≠ 0 := abs_ne_zero.mpr (sub_ne_zero.mpr h)
  rw [div_eq_one_iff_eq hb]

theorem C8_witness :
    sampleAxes2D.ylim.1 ≠ sampleAxes2D.ylim.2 ∧
    ((plot_crease_pattern samplePlanarCP none true true true sampleAxes2D).aspect
       = |(sampleAxes2D.xlim.2 - sampleAxes2D.xlim.1) /
           (sampleAxes2D.ylim.1 - sampleAxes2D.ylim.2)| ∧
     (data_units_equal
        (plot_crease_pattern samplePlanarCP none true true true sampleAxes2D)
       ↔ |sampleAxes2D.xlim.2 - sampleAxes2D.xlim.1|
           = |sampleAxes2D.ylim.1 - sampleAxes2D.ylim.2|)) :=
  ⟨by decide,
   C8_aspect_recomputed_each_call samplePlanarCP none true true true sampleAxes2D
     (by decide)⟩

/-- C9: a valid render collects all num_faces transformed polygons, in
face-index order, into one single polygon collection whose depth-sort mode
is the max z-order heuristic, rather than attaching per-face collections. -/
theorem C9_single_collection_max_zsort (cp : CreasePattern)
    (fold_angles : List ℚ) (cmap : ℚ → RGBA) (alpha : ℚ) (edges : Bool)
    (ax : Axes3D) (hlen : fold_angles.length = cp.num_folds) :
    ∃ c : Poly3DCollection,
      (plot_custom_configuration cp fold_angles cmap alpha edges ax).1.collections = [c] ∧
      (plot_custom_configuration cp fold_angles cmap alpha edges
          ax).1.collections.length = 1 ∧
      c.zsort = "max" ∧
      c.polys = (List.range cp.num_faces).map
        (face_polygon cp (cp.compute_folding_map fold_angles) ax.xlim.2 ax.ylim.2) ∧
      c.polys.length = cp.num_faces := by
  refine ⟨rendered_poly_collection cp fold_angles cmap alpha edges ax.xlim.2 ax.ylim.2,
    by simp [plot_custom_configuration, hlen],
    by simp [plot_custom_configuration, hlen],
    rfl, rendered_polys cp fold_angles cmap alpha edges ax.xlim.2 ax.ylim.2, ?_⟩
  rw [rendered_polys, List.length_map, List.length_range]

theorem C9_witness :
    ([0] : List ℚ).length = sampleCP.num_folds ∧
    (∃ c : Poly3DCollection,
      (plot_custom_configuration sampleCP [0] sampleCmap 1 false
          sampleAxes3D).1.collections = [c] ∧
      (plot_custom_configuration sampleCP [0] sampleCmap 1 false
          sampleAxes3D).1.collections.length = 1 ∧
      c.zsort = "max" ∧
      c.polys = (List.range sampleCP.num_faces).map
        (face_polygon sampleCP (sampleCP.compute_folding_map [0])
          sampleAxes3D.xlim.2 sampleAxes3D.ylim.2) ∧
      c.polys.length = sampleCP.num_faces) :=
  ⟨by decide,
   C9_single_collection_max_zsort sampleCP [0] sampleCmap 1 false sampleAxes3D
     (by decide)⟩

/-- C10: the polygon emitted for a face i with a well-formed corner count
has exactly num_face_corner_points[i] vertices, each of them the matching
corner point lifted to homogeneous coordinates, multiplied by the face
composite transform and recentered; and the polygon is unchanged under any
replacement of the corner array that preserves the valid prefix of face i,
so padded trailing corner slots never influence the output. -/
theorem C10_polygon_uses_valid_prefix (cp : CreasePattern)
    (fold_angles : List ℚ) (cmap : ℚ → RGBA) (alpha : ℚ) (edges : Bool)
    (ax : Axes3D) (i : ℕ) (alt : List (List (ℚ × ℚ)))
    (hlen : fold_angles.length = cp.num_folds)
    (hi : i < cp.num_faces)
    (hn : cp.num_face_corner_points.getD i 0 ≤ (cp.face_corner_points.getD i []).length)
    (halt : (alt.getD i []).take (cp.num_face_corner_points.getD i 0)
        = (cp.face_corner_points.getD i []).take (cp.num_face_corner_points.getD i 0)) :
    ∃ c : Poly3DCollection,
      (plot_custom_configuration cp fold_angles cmap alpha edges ax).1.collections = [c] ∧
      c.polys.getD i [] = face_polygon cp (cp.compute_folding_map fold_angles)
        ax.xlim.2 ax.ylim.2 i ∧
      (c.polys.getD i []).length = cp.num_face_corner_points.getD i 0 ∧
      (∀ j, j < cp.num_face_corner_points.getD i 0 →
        (c.polys.getD i []).getD j ⟨0, 0, 0⟩
          = recenter ax.xlim.2 ax.ylim.2 (cp.face_centers.getD cp.fixed_face (0, 0))
              (((cp.compute_folding_map fold_angles).getD i Mat4.id).apply
                (lift4 ((cp.face_corner_points.getD i []).getD j (0, 0))))) ∧
      face_polygon { cp with face_corner_points := alt }
          (cp.compute_folding_map fold_angles) ax.xlim.2 ax.ylim.2 i
        = c.polys.getD i [] := by
  have hpoly : (rendered_poly_collection cp fold_angles cmap alpha edges
      ax.xlim.2 ax.ylim.2).polys.getD i []
      = face_polygon cp (cp.compute_folding_map fold_angles) ax.xlim.2 ax.ylim.2 i := by
    rw [rendered_polys]
    exact getD_map_range _ _ _ _ hi
  refine ⟨rendered_poly_collection cp fold_angles cmap alpha edges ax.xlim.2 ax.ylim.2,
    by simp [plot_custom_configuration, hlen], hpoly, ?_, ?_, ?_⟩
  · rw [hpoly]
    unfold face_polygon
    rw [List.length_map, List.length_take]
    exact min_eq_left hn
  · intro j hj
    rw [hpoly]
    unfold face_polygon
    exact getD_map_take _ _ _ _ _ (0, 0) hj hn
  · rw [hpoly]
    show ((alt.getD i []).take (cp.num_face_corner_points.getD i 0)).map _
        = ((cp.face_corner_points.getD i []).take (cp.num_face_corner_points.getD i 0)).map _
    rw [halt]

theorem C10_witness :
    ([0] : List ℚ).length = sampleCP.num_folds ∧
    0 < sampleCP.num_faces ∧
    sampleCP.num_face_corner_points.getD 0 0
      ≤ (sampleCP.face_corner_points.getD 0 []).length ∧
    (([[(0, 0), (1, 0), (0, 1), (7, 7)], []] : List (List (ℚ × ℚ))).getD 0 []).take
        (sampleCP.num_face_corner_points.getD 0 0)
      = (sampleCP.face_corner_points.getD 0 []).take
          (sampleCP.num_face_corner_points.getD 0 0) ∧
    (∃ c : Poly3DCollection,
      (plot_custom_configuration sampleCP [0] sampleCmap 1 false
          sampleAxes3D).1.collections = [c] ∧
      c.polys.getD 0 [] = face_polygon sampleCP (sampleCP.compute_folding_map [0])
        sampleAxes3D.xlim.2 sampleAxes3D.ylim.2 0 ∧
      (c.polys.getD 0 []).length = sampleCP.num_face_corner_points.getD 0 0 ∧
      (∀ j, j < sampleCP.num_face_corner_points.getD 0 0 →
        (c.polys.getD 0 []).getD j ⟨0, 0, 0⟩
          = recenter sampleAxes3D.xlim.2 sampleAxes3D.ylim.2
              (sampleCP.face_centers.getD sampleCP.fixed_face (0, 0))
              (((sampleCP.compute_folding_map [0]).getD 0 Mat4.id).apply
                (lift4 ((sampleCP.face_corner_points.getD 0 []).getD j (0, 0))))) ∧
      face_polygon { sampleCP with
          face_corner_points := [[(0, 0), (1, 0), (0, 1), (7, 7)], []] }
          (sampleCP.compute_folding_map [0]) sampleAxes3D.xlim.2 sampleAxes3D.ylim.2 0
        = c.polys.getD 0 []) :=
  ⟨by decide, by decide, by decide, by decide,
   C10_polygon_uses_valid_prefix sampleCP [0] sampleCmap 1 false sampleAxes3D 0
     [[(0, 0), (1, 0), (0, 1), (7, 7)], []]
     (by decide) (by decide) (by decide) (by decide)⟩
